import Mathlib

set_option maxRecDepth 8000

/-!
Shallow embedding of the lark-chatflow webhook service.

The repository has two source files: `src/index.js` (embedded in the
namespace `IndexJs`) and an unnamed near-duplicate (`src/unnamed/part_000`,
embedded in the namespace `Part000`).  External collaborators are modelled
as oracles: `ask` is the Flowise AnswerService (`none` models a network or
JSON-parse failure), `parse` is `JSON.parse` applied to a message's content
(`none` models a parse exception), `fails` tells which outbound transport
send throws, and `upload` is the image-upload result in `Part000`.
Side effects are reified as a trace of `Effect`s.
-/

/-- JS `String.prototype.replace` with a plain-string pattern replaces only
the first occurrence; recursion over the character list. -/
def replaceFirstAux (pat rep : List Char) : List Char → List Char
  | [] => []
  | c :: rest =>
    if pat.isPrefixOf (c :: rest) then rep ++ List.drop pat.length (c :: rest)
    else c :: replaceFirstAux pat rep rest

def replaceFirst (s pat rep : String) : String :=
  String.mk (replaceFirstAux pat.data rep.data s.data)

/-- Lazy search for the closing `**` of `/\*\*(.*?)\*\*/`: returns the
(shortest) inner text and the remainder after the closing marker.  `.` in
the JS pattern does not match a newline, so the scan stops at `\n`. -/
def findClose2 : List Char → Option (List Char × List Char)
  | [] => none
  | c :: rest =>
    if c = '*' ∧ rest.head? = some '*' then some ([], rest.tail)
    else if c = '\n' then none
    else (findClose2 rest).map (fun p => (c :: p.1, p.2))

/-- Lazy search for the closing `*` of `/\*(.*?)\*/`. -/
def findClose1 : List Char → Option (List Char × List Char)
  | [] => none
  | c :: rest =>
    if c = '*' then some ([], rest)
    else if c = '\n' then none
    else (findClose1 rest).map (fun p => (c :: p.1, p.2))

/-- One global pass of `text.replace(/\*\*(.*?)\*\*/g, "<b>$1</b>")`.
When a `**` has no closing marker the regex engine advances one character
and retries.  The fuel argument only drives the recursion: the list
strictly shrinks at every recursive call, so `length + 1` steps suffice. -/
def boldPass : Nat → List Char → List Char
  | 0, l => l
  | _ + 1, [] => []
  | fuel + 1, c :: rest =>
    if c = '*' ∧ rest.head? = some '*' then
      match findClose2 rest.tail with
      | some (inner, after) => "<b>".data ++ inner ++ "</b>".data ++ boldPass fuel after
      | none => c :: boldPass fuel rest
    else c :: boldPass fuel rest

/-- One global pass of `text.replace(/\*(.*?)\*/g, "<i>$1</i>")`. -/
def italPass : Nat → List Char → List Char
  | 0, l => l
  | _ + 1, [] => []
  | fuel + 1, c :: rest =>
    if c = '*' then
      match findClose1 rest with
      | some (inner, after) => "<i>".data ++ inner ++ "</i>".data ++ italPass fuel after
      | none => c :: italPass fuel rest
    else c :: italPass fuel rest

/-- `formatMarkdown` from both source files: the bold pass, then the italic
pass. -/
def formatMarkdown (text : String) : String :=
  let t1 := String.mk (boldPass (text.data.length + 1) text.data)
  String.mk (italPass (t1.data.length + 1) t1.data)

/-- In-memory `conversationHistories` map (JS `Map` keyed by session id). -/
abbrev Store := List (String × List String)

def Store.get : Store → String → Option (List String)
  | [], _ => none
  | (k, v) :: rest, key => if k = key then some v else Store.get rest key

def Store.set : Store → String → List String → Store
  | [], key, val => [(key, val)]
  | (k, v) :: rest, key, val =>
    if k = key then (key, val) :: rest else (k, v) :: Store.set rest key val

def Store.delete : Store → String → Store
  | [], _ => []
  | (k, v) :: rest, key =>
    if k = key then Store.delete rest key else (k, v) :: Store.delete rest key

/-- A Flowise artifact (`artifact.type` / `artifact.data`). -/
structure Artifact where
  type : String
  data : String
deriving DecidableEq

/-- The parsed Flowise response body; `text` is absent when the JSON had no
such field (JS falsy check also rejects the empty string). -/
structure FlowiseResult where
  text : Option String
  artifacts : List Artifact
deriving DecidableEq

/-- Parsed message content; `text` is absent when the JSON had no `text`. -/
structure UserInput where
  text : Option String
deriving DecidableEq

/-- A single outbound transport message attempt. -/
inductive SendMsg
  | text (messageId content : String)
  | image (messageId imageKey : String)
deriving DecidableEq

/-- Observable side effects, in program order. -/
inductive Effect
  | insertDedup (eventId : String)
  | send (m : SendMsg)
  | askFlowise (prompt : String)
deriving DecidableEq

def sendAll (l : List SendMsg) : List Effect := l.map Effect.send

/-- `sessionId = \x7b chatId \x7d \x7b senderId \x7d` (template-literal
concatenation), identical in both source files. -/
def sessionIdOf (chatId senderId : String) : String := chatId ++ senderId

/-- JS `String.prototype.trim`: drop whitespace from both ends. -/
def jsTrim (s : String) : String :=
  String.mk ((((s.data.dropWhile Char.isWhitespace).reverse).dropWhile Char.isWhitespace).reverse)

/-- JS `s.startsWith(pre)`. -/
def strStartsWith (s pre : String) : Bool := pre.data.isPrefixOf s.data

/-- ASCII lowering, as `String.prototype.toLowerCase` acts on the ASCII
question text. -/
def lowerChar (c : Char) : Char :=
  if 'A' ≤ c ∧ c ≤ 'Z' then Char.ofNat (c.toNat + 32) else c

def strToLower (s : String) : String := String.mk (s.data.map lowerChar)

/-- Mention stripping:
`userInput.text.replace("@_user_1", "").trim()`, identical in both files. -/
def stripMention (t : String) : String := jsTrim (replaceFirst t "@_user_1" "")

def clearedMsg : String := "✅ Conversation history cleared."

def errorMsg : String := "⚠️ An error occurred while processing your request."

/-- JS `s.includes(pat)` on character lists. -/
def containsSub (pat : List Char) : List Char → Bool
  | [] => pat.isPrefixOf []
  | c :: rest => pat.isPrefixOf (c :: rest) || containsSub pat rest

/-- `params.header` fields used by the dispatcher. -/
structure EventHeader where
  event_type : String
  event_id : String
deriving DecidableEq

/-- `params.event.message` fields used by the dispatcher.  `content` is the
raw JSON string handed to `JSON.parse`. -/
structure RawMessage where
  message_id : String
  chat_id : String
  message_type : String
  content : String
deriving DecidableEq

/-- `params.event.sender.sender_id` (only `user_id` is read). -/
structure SenderInfo where
  user_id : String
deriving DecidableEq

/-- `params.event`; an absent `message` or `sender` makes the JS
destructuring throw a TypeError. -/
structure RawEvent where
  message : Option RawMessage
  sender : Option SenderInfo
deriving DecidableEq

/-- The webhook request body.  `encrypt` holds the truthiness of
`params.encrypt`; an absent `header` routes to the credential self-check. -/
structure Params where
  type : Option String
  challenge : Option String
  encrypt : Bool
  header : Option EventHeader
  event : Option RawEvent
deriving DecidableEq

/-- `LARK_APP_ID` / `LARK_APP_SECRET` (a JS falsy string is empty). -/
structure Config where
  appId : String
  appSecret : String
deriving DecidableEq

/-- Process-wide mutable state: `processedEvents` plus
`conversationHistories`. -/
structure ServerState where
  processedEvents : List String
  conversationHistories : Store
deriving DecidableEq

/-- What `res.json(...)` is called with.  `empty` models
`res.json(undefined)`: `handleReply` has no return value, so the success
path serializes `undefined`, i.e. an empty body. -/
inductive Resp
  | challenge (c : Option String)
  | codeMsg (code : Nat) (message : Option String)
  | empty
deriving DecidableEq

namespace IndexJs

def helpText : String := "\n  Lark GPT Commands\n\n  Usage:\n  - /clear : Remove conversation history to start a new session.\n  - /help : Get more help messages.\n  "

def invalidInputMsg : String := "⚠️ Invalid input received. Please provide a valid question."

def onlyTextMsg : String := "Only text messages are supported."

/-- The artifact loop of `reply`: only artifacts with `type === "png"` are
sent; each send is awaited inside the single try block, so a throwing send
(`fails k`) aborts the remaining iterations (the error is caught and
logged).  `k` counts transport calls made by this `reply` invocation. -/
def artifactSends (fails : Nat → Bool) (messageId : String) : Nat → List Artifact → List SendMsg
  | _, [] => []
  | k, a :: rest =>
    if a.type = "png" then
      if fails k then [SendMsg.image messageId a.data]
      else SendMsg.image messageId a.data :: artifactSends fails messageId (k + 1) rest
    else artifactSends fails messageId k rest

/-- The transport messages attempted by one `reply(messageId, content,
artifacts)` call: the formatted text message first (call 0), then the png
artifacts; a throw after the text message suppresses the artifact loop. -/
def replyTrace (fails : Nat → Bool) (messageId content : String) (artifacts : List Artifact) : List SendMsg :=
  if fails 0 then [SendMsg.text messageId (formatMarkdown content)]
  else SendMsg.text messageId (formatMarkdown content) :: artifactSends fails messageId 1 artifacts

/-- `queryFlowise`: push the question, store it, POST the space-joined
history, and on a truthy `result.text` push the answer; any failure throws
after the question was already pushed. -/
def queryFlowise (ask : String → Option FlowiseResult) (question sessionId : String)
    (st : Store) : Except Unit FlowiseResult × Store × List Effect :=
  let history := (Store.get st sessionId).getD [] ++ [question]
  let st1 := Store.set st sessionId history
  let prompt := String.intercalate " " history
  match ask prompt with
  | none => (Except.error (), st1, [Effect.askFlowise prompt])
  | some result =>
    match result.text with
    | some t =>
      if t = "" then (Except.error (), st1, [Effect.askFlowise prompt])
      else (Except.ok result, Store.set st1 sessionId (history ++ [t]),
            [Effect.askFlowise prompt])
    | none => (Except.error (), st1, [Effect.askFlowise prompt])

/-- `cmdProcess`; `cmdHelp` passes the string "Help" in the artifacts
position, whose character iteration sends nothing, so its trace equals a
plain text reply. -/
def cmdProcess (fails : Nat → Bool) (action sessionId messageId : String)
    (st : Store) : Store × List Effect :=
  if action = "/help" then (st, sendAll (replyTrace fails messageId helpText []))
  else if action = "/clear" then
    (Store.delete st sessionId, sendAll (replyTrace fails messageId clearedMsg []))
  else (st, sendAll (replyTrace fails messageId helpText []))

/-- `handleReply` from `src/index.js`: absent or empty (post-strip) text
gets the invalid-input reply; a leading slash routes to `cmdProcess`;
otherwise `queryFlowise`, replying with the answer plus artifacts on
success and a fixed apology on failure. -/
def handleReply (ask : String → Option FlowiseResult) (fails : Nat → Bool)
    (ui : UserInput) (sessionId messageId : String) (st : Store) : Store × List Effect :=
  match ui.text.map stripMention with
  | none => (st, sendAll (replyTrace fails messageId invalidInputMsg []))
  | some q =>
    if q = "" then (st, sendAll (replyTrace fails messageId invalidInputMsg []))
    else if strStartsWith q "/" then cmdProcess fails q sessionId messageId st
    else
      match queryFlowise ask q sessionId st with
      | (Except.ok result, st1, acts) =>
        (st1, acts ++ sendAll (replyTrace fails messageId (result.text.getD "") result.artifacts))
      | (Except.error _, st1, acts) =>
        (st1, acts ++ sendAll (replyTrace fails messageId errorMsg []))

def validateAppConfig (cfg : Config) : Resp :=
  if cfg.appId = "" ∨ cfg.appSecret = "" then
    Resp.codeMsg 1 (some "Missing Lark App ID or Secret")
  else if !strStartsWith cfg.appId "cli_" then
    Resp.codeMsg 1 (some "Lark App ID must start with \x27cli_\x27")
  else Resp.codeMsg 0 (some "✅ Lark App configuration is valid.")

/-- The `POST /webhook` handler.  `Except.error` models an exception
escaping the async handler (a rejected promise at the HTTP layer): absent
`event`/`message`/`sender` under a message-received header, or an
unparseable `content` for a text message. -/
def webhook (cfg : Config) (parse : String → Option UserInput)
    (ask : String → Option FlowiseResult) (fails : Nat → Bool)
    (st : ServerState) (p : Params) :
    Except Unit (Resp × ServerState × List Effect) :=
  if p.type = some "url_verification" then Except.ok (Resp.challenge p.challenge, st, [])
  else if p.encrypt then
    Except.ok (Resp.codeMsg 1 (some "Encryption is enabled, please disable it."), st, [])
  else
    match p.header with
    | none => Except.ok (validateAppConfig cfg, st, [])
    | some hdr =>
      if hdr.event_type = "im.message.receive_v1" then
        match p.event with
        | none => Except.error ()
        | some ev =>
          match ev.message with
          | none => Except.error ()
          | some m =>
            match ev.sender with
            | none => Except.error ()
            | some s =>
              let sessionId := sessionIdOf m.chat_id s.user_id
              if hdr.event_id ∈ st.processedEvents then
                Except.ok (Resp.codeMsg 0 (some "Duplicate event"), st, [])
              else
                let st1 : ServerState :=
                  { st with processedEvents := hdr.event_id :: st.processedEvents }
                if m.message_type ≠ "text" then
                  Except.ok (Resp.codeMsg 0 none, st1,
                    Effect.insertDedup hdr.event_id ::
                      sendAll (replyTrace fails m.message_id onlyTextMsg []))
                else
                  match parse m.content with
                  | none => Except.error ()
                  | some ui =>
                    let pr := handleReply ask fails ui sessionId m.message_id
                                st.conversationHistories
                    Except.ok (Resp.empty,
                      { st1 with conversationHistories := pr.1 },
                      Effect.insertDedup hdr.event_id :: pr.2)
      else Except.ok (Resp.codeMsg 2 none, st, [])

end IndexJs

namespace Part000

def helpText : String := "\n  Lark GPT Commands:\n  - /clear : Remove conversation history to start a new session.\n  - /help : Get more help messages.\n  "

/-- `reply` in `part_000` sends a single text message inside its own
try/catch, so the attempt is always made and a transport failure never
escapes. -/
def reply (messageId content : String) : List Effect :=
  [Effect.send (SendMsg.text messageId (formatMarkdown content))]

/-- `queryFlowise` in `part_000`: identical bookkeeping to `src/index.js`,
but it returns `result.text` rather than the whole result object. -/
def queryFlowise (ask : String → Option FlowiseResult) (question sessionId : String)
    (st : Store) : Except Unit String × Store × List Effect :=
  let history := (Store.get st sessionId).getD [] ++ [question]
  let st1 := Store.set st sessionId history
  let prompt := String.intercalate " " history
  match ask prompt with
  | none => (Except.error (), st1, [Effect.askFlowise prompt])
  | some result =>
    match result.text with
    | some t =>
      if t = "" then (Except.error (), st1, [Effect.askFlowise prompt])
      else (Except.ok t, Store.set st1 sessionId (history ++ [t]),
            [Effect.askFlowise prompt])
    | none => (Except.error (), st1, [Effect.askFlowise prompt])

def cmdProcess (action sessionId messageId : String) (st : Store) : Store × List Effect :=
  if action = "/help" then (st, reply messageId helpText)
  else if action = "/clear" then
    (Store.delete st sessionId, reply messageId clearedMsg)
  else (st, reply messageId helpText)

/-- `question.toLowerCase().includes("histogram") ||
question.toLowerCase().includes("chart")`. -/
def isChartQuestion (q : String) : Bool :=
  containsSub "histogram".data (strToLower q).data || containsSub "chart".data (strToLower q).data

/-- `handleReply` from `part_000`.  It dereferences `userInput.text.replace`
without a guard, so an absent `text` throws (`Except.error`).  For
chart/histogram questions it uploads `/tmp/work_hours_histogram.png`
(`upload = none` models a throw from `uploadImage`, caught by the outer
catch; an empty key is falsy and falls back to the text answer) and sends
the image via `replyWithImage`, which has no catch of its own: a transport
throw there (`imgFails`) lands in the outer catch, which sends the apology. -/
def handleReply (ask : String → Option FlowiseResult) (upload : Option String)
    (imgFails : Bool) (ui : UserInput) (sessionId messageId : String)
    (st : Store) : Except Unit (Store × List Effect) :=
  match ui.text with
  | none => Except.error ()
  | some t =>
    let question := stripMention t
    if strStartsWith question "/" then Except.ok (cmdProcess question sessionId messageId st)
    else
      match queryFlowise ask question sessionId st with
      | (Except.error _, st1, acts) => Except.ok (st1, acts ++ reply messageId errorMsg)
      | (Except.ok answer, st1, acts) =>
        if isChartQuestion question then
          match upload with
          | none => Except.ok (st1, acts ++ reply messageId errorMsg)
          | some imageKey =>
            if imageKey = "" then Except.ok (st1, acts ++ reply messageId answer)
            else if imgFails then
              Except.ok (st1, acts ++ Effect.send (SendMsg.image messageId imageKey) ::
                reply messageId errorMsg)
            else Except.ok (st1, acts ++ [Effect.send (SendMsg.image messageId imageKey)])
        else Except.ok (st1, acts ++ reply messageId answer)

end Part000

/-- Recognizes the text message of a `reply` invocation; every `reply` call
attempts exactly one text send, so counting these counts logical replies. -/
def isTextSend : Effect → Bool
  | Effect.send (SendMsg.text _ _) => true
  | _ => false

def textSendCount (tr : List Effect) : Nat := tr.countP isTextSend

/-- N successful question/answer exchanges against `IndexJs.queryFlowise`,
each answered by the paired (nonempty) answer string. -/
def runExchanges (sessionId : String) : List (String × String) → Store → Store
  | [], st => st
  | (q, a) :: rest, st =>
      runExchanges sessionId rest
        (IndexJs.queryFlowise (fun _ => some ⟨some a, []⟩) q sessionId st).2.1

/-- [q1, a1, q2, a2, ...]. -/
def interleave : List (String × String) → List String
  | [] => []
  | (q, a) :: rest => q :: a :: interleave rest

/-- A message-received body the JS destructuring and `JSON.parse` accept:
`event`, `event.message` and `event.sender.sender_id.user_id` exist, and a
text message's `content` parses. -/
def wellShaped (parse : String → Option UserInput) (p : Params) : Prop :=
  ∀ hdr : EventHeader, p.header = some hdr →
    hdr.event_type = "im.message.receive_v1" →
    ∃ ev m sndr, p.event = some ev ∧ ev.message = some m ∧ ev.sender = some sndr ∧
      (m.message_type = "text" → (parse m.content).isSome = true)

theorem Store.get_set_self (st : Store) (k : String) (v : List String) :
    Store.get (Store.set st k v) k = some v := by
  induction st with
  | nil => simp [Store.set, Store.get]
  | cons hd tl ih =>
    obtain ⟨k', v'⟩ := hd
    by_cases h : k' = k
    · simp [Store.set, h, Store.get]
    · simp [Store.set, h, Store.get, ih]

theorem Store.get_delete_self (st : Store) (k : String) :
    Store.get (Store.delete st k) k = none := by
  induction st with
  | nil => simp [Store.delete, Store.get]
  | cons hd tl ih =>
    obtain ⟨k', v'⟩ := hd
    by_cases h : k' = k
    · simpa [Store.delete, h] using ih
    · simp [Store.delete, h, Store.get, ih]

theorem replyTrace_no_artifacts (fails : Nat → Bool) (messageId content : String) :
    IndexJs.replyTrace fails messageId content [] =
      [SendMsg.text messageId (formatMarkdown content)] := by
  unfold IndexJs.replyTrace
  cases h : fails 0 <;> simp [h, IndexJs.artifactSends]

theorem queryFlowise_trace (ask : String → Option FlowiseResult) (q sessionId : String)
    (st : Store) :
    (IndexJs.queryFlowise ask q sessionId st).2.2 =
      [Effect.askFlowise
        (String.intercalate " " ((Store.get st sessionId).getD [] ++ [q]))] := by
  unfold IndexJs.queryFlowise
  dsimp only
  split
  · rfl
  · split
    · split
      · rfl
      · rfl
    · rfl

theorem queryFlowise_cases (ask : String → Option FlowiseResult) (q sessionId : String)
    (st : Store) :
    ((IndexJs.queryFlowise ask q sessionId st).1 = Except.error () ∧
      (IndexJs.queryFlowise ask q sessionId st).2.1 =
        Store.set st sessionId ((Store.get st sessionId).getD [] ++ [q])) ∨
    (∃ r t, (IndexJs.queryFlowise ask q sessionId st).1 = Except.ok r ∧
      r.text = some t ∧ t ≠ "" ∧
      (IndexJs.queryFlowise ask q sessionId st).2.1 =
        Store.set (Store.set st sessionId ((Store.get st sessionId).getD [] ++ [q]))
          sessionId (((Store.get st sessionId).getD [] ++ [q]) ++ [t])) := by
  unfold IndexJs.queryFlowise
  dsimp only
  split
  · exact Or.inl ⟨rfl, rfl⟩
  · rename_i result hask
    split
    · rename_i t ht
      split
      · exact Or.inl ⟨rfl, rfl⟩
      · rename_i hne
        exact Or.inr ⟨result, t, rfl, ht, hne, rfl⟩
    · exact Or.inl ⟨rfl, rfl⟩

theorem queryFlowise_const_answer (a q sessionId : String) (st : Store) (ha : a ≠ "") :
    (IndexJs.queryFlowise (fun _ => some ⟨some a, []⟩) q sessionId st).2.1 =
      Store.set (Store.set st sessionId ((Store.get st sessionId).getD [] ++ [q]))
        sessionId (((Store.get st sessionId).getD [] ++ [q]) ++ [a]) := by
  unfold IndexJs.queryFlowise
  simp [ha]

theorem countP_sendAll_artifactSends (fails : Nat → Bool) (mid : String) :
    ∀ (arts : List Artifact) (k : Nat),
      List.countP isTextSend (sendAll (IndexJs.artifactSends fails mid k arts)) = 0 := by
  intro arts
  induction arts with
  | nil => intro k; rfl
  | cons a rest ih =>
    intro k
    unfold IndexJs.artifactSends
    by_cases hp : a.type = "png"
    · by_cases hf : fails k = true
      · simp [hp, hf, sendAll, isTextSend]
      · simp [hp, hf, sendAll, isTextSend, List.countP_cons]
        simpa [sendAll] using ih (k + 1)
    · simp [hp]
      simpa [sendAll] using ih k

theorem textSendCount_replyTrace (fails : Nat → Bool) (mid c : String) (arts : List Artifact) :
    textSendCount (sendAll (IndexJs.replyTrace fails mid c arts)) = 1 := by
  unfold textSendCount IndexJs.replyTrace
  cases hf : fails 0
  · simp [hf, sendAll, List.countP_cons, isTextSend]
    have h := countP_sendAll_artifactSends fails mid arts 1
    simpa [sendAll] using h
  · simp [hf, sendAll, List.countP_cons, isTextSend]

theorem textSendCount_cmdProcess (fails : Nat → Bool) (action sessionId messageId : String)
    (st : Store) :
    textSendCount (IndexJs.cmdProcess fails action sessionId messageId st).2 = 1 := by
  unfold IndexJs.cmdProcess
  split
  · exact textSendCount_replyTrace fails messageId IndexJs.helpText []
  · split
    · exact textSendCount_replyTrace fails messageId clearedMsg []
    · exact textSendCount_replyTrace fails messageId IndexJs.helpText []

theorem textSendCount_handleReply (ask : String → Option FlowiseResult) (fails : Nat → Bool)
    (ui : UserInput) (sessionId messageId : String) (st : Store) :
    textSendCount (IndexJs.handleReply ask fails ui sessionId messageId st).2 = 1 := by
  unfold IndexJs.handleReply
  cases hut : ui.text with
  | none =>
    simp only [hut, Option.map_none']
    exact textSendCount_replyTrace fails messageId IndexJs.invalidInputMsg []
  | some t =>
    simp only [hut, Option.map_some']
    by_cases hq : stripMention t = ""
    · simp only [hq, if_pos rfl]
      exact textSendCount_replyTrace fails messageId IndexJs.invalidInputMsg []
    · simp only [if_neg hq]
      by_cases hs : strStartsWith (stripMention t) "/" = true
      · simp only [hs, if_pos]
        exact textSendCount_cmdProcess fails (stripMention t) sessionId messageId st
      · simp only [Bool.not_eq_true] at hs
        simp only [hs, Bool.false_eq_true, if_false]
        rcases hqf : IndexJs.queryFlowise ask (stripMention t) sessionId st with ⟨r, st1, acts⟩
        have hActs : acts =
            [Effect.askFlowise
              (String.intercalate " " ((Store.get st sessionId).getD [] ++ [stripMention t]))] := by
          have h := queryFlowise_trace ask (stripMention t) sessionId st
          rw [hqf] at h
          exact h
        cases r with
        | ok result =>
          dsimp only
          simp only [textSendCount, List.countP_append, hActs]
          have h1 : List.countP isTextSend
              [Effect.askFlowise
                (String.intercalate " " ((Store.get st sessionId).getD [] ++ [stripMention t]))] = 0 := rfl
          rw [h1]
          have h2 := textSendCount_replyTrace fails messageId (result.text.getD "") result.artifacts
          simpa [textSendCount] using h2
        | error e =>
          dsimp only
          simp only [textSendCount, List.countP_append, hActs]
          have h1 : List.countP isTextSend
              [Effect.askFlowise
                (String.intercalate " " ((Store.get st sessionId).getD [] ++ [stripMention t]))] = 0 := rfl
          rw [h1]
          have h2 := textSendCount_replyTrace fails messageId errorMsg []
          simpa [textSendCount] using h2

theorem webhook_duplicate (cfg : Config) (parse : String → Option UserInput)
    (ask : String → Option FlowiseResult) (fails : Nat → Bool) (st : ServerState)
    (p : Params) (hdr : EventHeader) (ev : RawEvent) (m : RawMessage) (s : SenderInfo)
    (hty : p.type ≠ some "url_verification") (henc : p.encrypt = false)
    (hh : p.header = some hdr) (het : hdr.event_type = "im.message.receive_v1")
    (hev : p.event = some ev) (hm : ev.message = some m) (hs : ev.sender = some s)
    (hdup : hdr.event_id ∈ st.processedEvents) :
    IndexJs.webhook cfg parse ask fails st p =
      Except.ok (Resp.codeMsg 0 (some "Duplicate event"), st, []) := by
  unfold IndexJs.webhook
  rw [if_neg hty, henc]
  simp only [Bool.false_eq_true, if_false, hh, hev, hm, hs]
  rw [if_pos het, if_pos hdup]

theorem webhook_fresh_nontext (cfg : Config) (parse : String → Option UserInput)
    (ask : String → Option FlowiseResult) (fails : Nat → Bool) (st : ServerState)
    (p : Params) (hdr : EventHeader) (ev : RawEvent) (m : RawMessage) (s : SenderInfo)
    (hty : p.type ≠ some "url_verification") (henc : p.encrypt = false)
    (hh : p.header = some hdr) (het : hdr.event_type = "im.message.receive_v1")
    (hev : p.event = some ev) (hm : ev.message = some m) (hs : ev.sender = some s)
    (hfresh : hdr.event_id ∉ st.processedEvents) (hmt : m.message_type ≠ "text") :
    IndexJs.webhook cfg parse ask fails st p =
      Except.ok (Resp.codeMsg 0 none,
        ⟨hdr.event_id :: st.processedEvents, st.conversationHistories⟩,
        [Effect.insertDedup hdr.event_id,
         Effect.send (SendMsg.text m.message_id (formatMarkdown IndexJs.onlyTextMsg))]) := by
  unfold IndexJs.webhook
  rw [if_neg hty, henc]
  simp only [Bool.false_eq_true, if_false, hh, hev, hm, hs]
  rw [if_pos het, if_neg hfresh, if_pos hmt, replyTrace_no_artifacts]
  rfl

theorem webhook_fresh_text (cfg : Config) (parse : String → Option UserInput)
    (ask : String → Option FlowiseResult) (fails : Nat → Bool) (st : ServerState)
    (p : Params) (hdr : EventHeader) (ev : RawEvent) (m : RawMessage) (s : SenderInfo)
    (ui : UserInput)
    (hty : p.type ≠ some "url_verification") (henc : p.encrypt = false)
    (hh : p.header = some hdr) (het : hdr.event_type = "im.message.receive_v1")
    (hev : p.event = some ev) (hm : ev.message = some m) (hs : ev.sender = some s)
    (hfresh : hdr.event_id ∉ st.processedEvents) (hmt : m.message_type = "text")
    (hui : parse m.content = some ui) :
    IndexJs.webhook cfg parse ask fails st p =
      Except.ok (Resp.empty,
        ⟨hdr.event_id :: st.processedEvents,
         (IndexJs.handleReply ask fails ui (sessionIdOf m.chat_id s.user_id)
            m.message_id st.conversationHistories).1⟩,
        Effect.insertDedup hdr.event_id ::
          (IndexJs.handleReply ask fails ui (sessionIdOf m.chat_id s.user_id)
            m.message_id st.conversationHistories).2) := by
  unfold IndexJs.webhook
  rw [if_neg hty, henc]
  simp only [Bool.false_eq_true, if_false, hh, hev, hm, hs]
  rw [if_pos het, if_neg hfresh, if_neg (not_not_intro hmt), hui]

theorem runExchanges_get (sessionId : String) :
    ∀ (l : List (String × String)) (st : Store) (h0 : List String),
      Store.get st sessionId = some h0 → (∀ p ∈ l, p.2 ≠ "") →
      Store.get (runExchanges sessionId l st) sessionId = some (h0 ++ interleave l) := by
  intro l
  induction l with
  | nil =>
    intro st h0 hget _
    simpa [runExchanges, interleave] using hget
  | cons hd rest ih =>
    obtain ⟨q, a⟩ := hd
    intro st h0 hget hans
    have ha : a ≠ "" := hans (q, a) (List.mem_cons_self _ _)
    have hstep := queryFlowise_const_answer a q sessionId st ha
    have hget1 : Store.get
        (IndexJs.queryFlowise (fun _ => some ⟨some a, []⟩) q sessionId st).2.1 sessionId =
        some (h0 ++ [q, a]) := by
      rw [hstep, Store.get_set_self, hget]
      simp
    have hrest : ∀ p ∈ rest, p.2 ≠ "" := fun p hp => hans p (List.mem_cons_of_mem _ hp)
    have := ih (IndexJs.queryFlowise (fun _ => some ⟨some a, []⟩) q sessionId st).2.1
      (h0 ++ [q, a]) hget1 hrest
    rw [runExchanges, this]
    simp [interleave]

theorem string_data_append (a b : String) : (a ++ b).data = a.data ++ b.data := by
  cases a
  cases b
  rfl

theorem string_eq_of_data_eq (a b : String) (h : a.data = b.data) : a = b := by
  cases a
  cases b
  exact congrArg String.mk h

theorem queryFlowise_relate (ask : String → Option FlowiseResult) (q sessionId : String)
    (st : Store) :
    Part000.queryFlowise ask q sessionId st =
      ((IndexJs.queryFlowise ask q sessionId st).1.map (fun r => r.text.getD ""),
        (IndexJs.queryFlowise ask q sessionId st).2) := by
  unfold Part000.queryFlowise IndexJs.queryFlowise
  dsimp only
  cases hask : ask (String.intercalate " " ((Store.get st sessionId).getD [] ++ [q])) with
  | none => simp [Except.map]
  | some result =>
    dsimp only
    cases ht : result.text with
    | none => simp [ht, Except.map]
    | some t =>
      by_cases he : t = ""
      · simp [ht, he, Except.map]
      · simp [ht, he, Except.map]

theorem queryFlowise_ok_ask (ask : String → Option FlowiseResult) (q sessionId : String)
    (st : Store) (r : FlowiseResult)
    (h : (IndexJs.queryFlowise ask q sessionId st).1 = Except.ok r) :
    ask (String.intercalate " " ((Store.get st sessionId).getD [] ++ [q])) = some r := by
  unfold IndexJs.queryFlowise at h
  dsimp only at h
  cases hask : ask (String.intercalate " " ((Store.get st sessionId).getD [] ++ [q])) with
  | none =>
    rw [hask] at h
    simp at h
  | some result =>
    rw [hask] at h
    cases ht : result.text with
    | none => simp [ht] at h
    | some t =>
      by_cases he : t = ""
      · simp [ht, he] at h
      · simp [ht, he] at h
        rw [h]

theorem validateAppConfig_code (cfg : Config) (code : Nat) (msg : Option String)
    (h : IndexJs.validateAppConfig cfg = Resp.codeMsg code msg) : code ≤ 2 := by
  unfold IndexJs.validateAppConfig at h
  split at h
  · cases h
    omega
  · split at h
    · cases h
      omega
    · cases h
      omega

theorem artifactSends_all (mid : String) :
    ∀ (arts : List Artifact) (k : Nat),
      IndexJs.artifactSends (fun _ => false) mid k arts =
        (arts.filter (fun a => a.type == "png")).map (fun a => SendMsg.image mid a.data) := by
  intro arts
  induction arts with
  | nil => intro k; rfl
  | cons a rest ih =>
    intro k
    unfold IndexJs.artifactSends
    by_cases hp : a.type = "png"
    · simp [hp, ih (k + 1)]
    · simp [hp, ih k]

theorem artifactSends_prefix (mid : String) (fails : Nat → Bool) :
    ∀ (arts : List Artifact) (k : Nat), ∃ rest : List SendMsg,
      IndexJs.artifactSends (fun _ => false) mid k arts =
        IndexJs.artifactSends fails mid k arts ++ rest := by
  intro arts
  induction arts with
  | nil => intro k; exact ⟨[], rfl⟩
  | cons a tl ih =>
    intro k
    by_cases hp : a.type = "png"
    · by_cases hf : fails k = true
      · refine ⟨IndexJs.artifactSends (fun _ => false) mid (k + 1) tl, ?_⟩
        simp only [IndexJs.artifactSends]
        simp [hp, hf]
      · obtain ⟨r', hr⟩ := ih (k + 1)
        refine ⟨r', ?_⟩
        simp only [IndexJs.artifactSends]
        simp [hp, hf, hr]
    · obtain ⟨r', hr⟩ := ih k
      refine ⟨r', ?_⟩
      simp only [IndexJs.artifactSends]
      simp [hp, hr]

/-- Claim C8: `formatMarkdown` maps "**bold** and *italic*" to output in
which the bold rich-text tag wraps exactly "bold", the italic tag wraps
exactly "italic", and no other character of the text is altered. -/
theorem claim8_markup_normalization :
    formatMarkdown "**bold** and *italic*" = "<b>bold</b> and <i>italic</i>" := rfl

/-- Claim C3: executing "/clear" removes the session's entry from the store
entirely (the subsequent lookup observes complete absence, not an empty
list), and a question asked afterwards produces an AnswerService request
whose context string is exactly the new question, with no prior history. -/
theorem claim3_clear_then_fresh_context (ask : String → Option FlowiseResult)
    (fails : Nat → Bool) (sessionId messageId q : String) (st : Store) :
    Store.get (IndexJs.cmdProcess fails "/clear" sessionId messageId st).1 sessionId = none ∧
    (IndexJs.queryFlowise ask q sessionId
        (IndexJs.cmdProcess fails "/clear" sessionId messageId st).1).2.2 =
      [Effect.askFlowise q] := by
  have hdel : (IndexJs.cmdProcess fails "/clear" sessionId messageId st).1 =
      Store.delete st sessionId := by
    unfold IndexJs.cmdProcess
    rw [if_neg (by decide), if_pos rfl]
  refine ⟨?_, ?_⟩
  · rw [hdel]
    exact Store.get_delete_self st sessionId
  · rw [hdel, queryFlowise_trace, Store.get_delete_self]
    rfl

/-- Claim C4: if the AnswerService call fails (network error, parse error,
or a response without a truthy text field), the history afterwards equals
the history before plus exactly the appended question; the answer is
appended exactly when the call succeeds. -/
theorem claim4_failure_keeps_question (ask : String → Option FlowiseResult)
    (q sessionId : String) (st : Store) :
    ((IndexJs.queryFlowise ask q sessionId st).1 = Except.error () →
      Store.get (IndexJs.queryFlowise ask q sessionId st).2.1 sessionId =
        some ((Store.get st sessionId).getD [] ++ [q])) ∧
    (∀ r : FlowiseResult, (IndexJs.queryFlowise ask q sessionId st).1 = Except.ok r →
      ∃ t, r.text = some t ∧
        Store.get (IndexJs.queryFlowise ask q sessionId st).2.1 sessionId =
          some ((Store.get st sessionId).getD [] ++ [q] ++ [t])) := by
  rcases queryFlowise_cases ask q sessionId st with ⟨he, hst⟩ | ⟨r, t, hok, ht, hne, hst⟩
  · refine ⟨fun _ => ?_, fun r hr => ?_⟩
    · rw [hst, Store.get_set_self]
    · rw [he] at hr
      exact absurd hr (by simp)
  · refine ⟨fun he2 => ?_, fun r' hr' => ?_⟩
    · rw [hok] at he2
      exact absurd he2 (by simp)
    · rw [hok] at hr'
      injection hr' with hrr
      subst hrr
      exact ⟨t, ht, by rw [hst, Store.get_set_self]⟩

/-- Witness for C4: with an always-failing AnswerService oracle, asking
"hi" in a fresh store leaves exactly the question in the history. -/
theorem claim4_witness :
    Store.get (IndexJs.queryFlowise (fun _ => none) "hi" "s" []).2.1 "s" = some ["hi"] :=
  (claim4_failure_keeps_question (fun _ => none) "hi" "s" []).1 rfl

/-- Claim C5: after N successful question/answer exchanges from a fresh
session, the conversation history is exactly the interleaved sequence
[q1, a1, ..., qN, aN]. -/
theorem claim5_history_interleaved (l : List (String × String)) (sessionId : String)
    (hne : l ≠ []) (hans : ∀ p ∈ l, p.2 ≠ "") :
    Store.get (runExchanges sessionId l []) sessionId = some (interleave l) := by
  cases l with
  | nil => exact absurd rfl hne
  | cons hd rest =>
    obtain ⟨q, a⟩ := hd
    have ha : a ≠ "" := hans (q, a) (List.mem_cons_self _ _)
    have hrest : ∀ p ∈ rest, p.2 ≠ "" := fun p hp => hans p (List.mem_cons_of_mem _ hp)
    have hstep := queryFlowise_const_answer a q sessionId [] ha
    have hget1 : Store.get
        (IndexJs.queryFlowise (fun _ => some ⟨some a, []⟩) q sessionId []).2.1 sessionId =
        some [q, a] := by
      rw [hstep, Store.get_set_self]
      rfl
    have hrec := runExchanges_get sessionId rest _ [q, a] hget1 hrest
    simp only [runExchanges]
    rw [hrec]
    simp [interleave]

/-- Witness for C5 at two concrete exchanges. -/
theorem claim5_witness :
    Store.get (runExchanges "s" [("q1", "a1"), ("q2", "a2")] []) "s" =
      some ["q1", "a1", "q2", "a2"] :=
  claim5_history_interleaved [("q1", "a1"), ("q2", "a2")] "s" (by decide) (by decide)

/-- Claim C7 counterexample: with two png artifacts and a transport throw on
the first artifact send (call 1), the second artifact message is never
attempted — all sends share one try block, so a failure while sending one
artifact does suppress the subsequent artifact sends. -/
theorem claim7_counterexample :
    IndexJs.replyTrace (fun k => decide (k = 1)) "m" "hi" [⟨"png", "a"⟩, ⟨"png", "b"⟩] =
      [SendMsg.text "m" "hi", SendMsg.image "m" "a"] ∧
    SendMsg.image "m" "b" ∉
      IndexJs.replyTrace (fun k => decide (k = 1)) "m" "hi" [⟨"png", "a"⟩, ⟨"png", "b"⟩] := by
  have h : IndexJs.replyTrace (fun k => decide (k = 1)) "m" "hi"
      [⟨"png", "a"⟩, ⟨"png", "b"⟩] = [SendMsg.text "m" "hi", SendMsg.image "m" "a"] := rfl
  refine ⟨h, ?_⟩
  rw [h]
  decide

/-- Claim C7 amended: when no send fails, `reply` attempts exactly one text
message followed by the png artifact messages in original order; when a
send throws, the error is caught and logged but the remaining sends are
suppressed, so the attempted sequence is always an initial segment of the
full one. -/
theorem claim7_reply_order_amended (messageId content : String) (artifacts : List Artifact) :
    IndexJs.replyTrace (fun _ => false) messageId content artifacts =
      SendMsg.text messageId (formatMarkdown content) ::
        (artifacts.filter (fun a => a.type == "png")).map
          (fun a => SendMsg.image messageId a.data) ∧
    ∀ fails : Nat → Bool, ∃ rest : List SendMsg,
      SendMsg.text messageId (formatMarkdown content) ::
        (artifacts.filter (fun a => a.type == "png")).map
          (fun a => SendMsg.image messageId a.data) =
      IndexJs.replyTrace fails messageId content artifacts ++ rest := by
  have hall : IndexJs.replyTrace (fun _ => false) messageId content artifacts =
      SendMsg.text messageId (formatMarkdown content) ::
        (artifacts.filter (fun a => a.type == "png")).map
          (fun a => SendMsg.image messageId a.data) := by
    unfold IndexJs.replyTrace
    simp [artifactSends_all]
  refine ⟨hall, fun fails => ?_⟩
  by_cases hf : fails 0 = true
  · refine ⟨(artifacts.filter (fun a => a.type == "png")).map
      (fun a => SendMsg.image messageId a.data), ?_⟩
    unfold IndexJs.replyTrace
    simp [hf]
  · obtain ⟨r', hr⟩ := artifactSends_prefix messageId fails artifacts 1
    refine ⟨r', ?_⟩
    unfold IndexJs.replyTrace
    simp only [hf, Bool.false_eq_true, if_false, List.cons_append, List.cons_inj_right]
    rw [← artifactSends_all messageId artifacts 1]
    exact hr

/-- Claim C9 counterexample: the SessionId is the bare concatenation of
chatId and senderId, which is not injective on pairs: ("a","bc") and
("ab","c") are distinct user-in-chat threads with the same SessionId. -/
theorem claim9_counterexample :
    sessionIdOf "a" "bc" = sessionIdOf "ab" "c" ∧
    (("a", "bc") : String × String) ≠ ("ab", "c") :=
  ⟨rfl, by decide⟩

/-- Claim C9 amended: the derivation is injective once the chat ids have
equal length (in particular within one chat): distinct pairs with
equal-length chat ids yield distinct SessionIds. -/
theorem claim9_sessionid_injective_eqlen (c1 s1 c2 s2 : String)
    (hlen : c1.length = c2.length) (hne : (c1, s1) ≠ (c2, s2)) :
    sessionIdOf c1 s1 ≠ sessionIdOf c2 s2 := by
  intro heq
  apply hne
  have hdata : c1.data ++ s1.data = c2.data ++ s2.data := by
    have h := congrArg String.data heq
    simpa [sessionIdOf, string_data_append] using h
  have hl : c1.data.length = c2.data.length := hlen
  obtain ⟨h1, h2⟩ := List.append_inj hdata hl
  rw [string_eq_of_data_eq c1 c2 h1, string_eq_of_data_eq s1 s2 h2]

/-- Witness for C9 amended: equal-length distinct chat ids give distinct
session ids. -/
theorem claim9_witness : sessionIdOf "aa" "b" ≠ sessionIdOf "ab" "c" :=
  claim9_sessionid_injective_eqlen "aa" "b" "ab" "c" (by decide) (by decide)

/-- Claim C6: for a fresh (non-duplicate) message-received event whose
messageType is not "text", exactly one fixed "only text supported" reply is
attempted, the handler returns code 0 (no message), no AnswerService call
occurs, and every session history is unchanged — the returned trace and
state make all of this explicit. -/
theorem claim6_nontext_no_effects (cfg : Config) (parse : String → Option UserInput)
    (ask : String → Option FlowiseResult) (fails : Nat → Bool) (st : ServerState)
    (p : Params) (hdr : EventHeader) (ev : RawEvent) (m : RawMessage) (s : SenderInfo)
    (hty : p.type ≠ some "url_verification") (henc : p.encrypt = false)
    (hh : p.header = some hdr) (het : hdr.event_type = "im.message.receive_v1")
    (hev : p.event = some ev) (hm : ev.message = some m) (hs : ev.sender = some s)
    (hfresh : hdr.event_id ∉ st.processedEvents) (hmt : m.message_type ≠ "text") :
    IndexJs.webhook cfg parse ask fails st p =
      Except.ok (Resp.codeMsg 0 none,
        ⟨hdr.event_id :: st.processedEvents, st.conversationHistories⟩,
        [Effect.insertDedup hdr.event_id,
         Effect.send (SendMsg.text m.message_id "Only text messages are supported.")]) := by
  rw [webhook_fresh_nontext cfg parse ask fails st p hdr ev m s hty henc hh het hev hm hs
    hfresh hmt]
  rfl

/-- Witness for C6: an image-typed message event. -/
theorem claim6_witness :
    IndexJs.webhook ⟨"cli_a", "sec"⟩ (fun _ => none) (fun _ => none) (fun _ => false)
      ⟨[], []⟩
      ⟨none, none, false, some ⟨"im.message.receive_v1", "e1"⟩,
        some ⟨some ⟨"m1", "c1", "image", "x"⟩, some ⟨"u1"⟩⟩⟩ =
      Except.ok (Resp.codeMsg 0 none, ⟨["e1"], []⟩,
        [Effect.insertDedup "e1",
         Effect.send (SendMsg.text "m1" "Only text messages are supported.")]) :=
  claim6_nontext_no_effects ⟨"cli_a", "sec"⟩ (fun _ => none) (fun _ => none) (fun _ => false)
    ⟨[], []⟩ _ ⟨"im.message.receive_v1", "e1"⟩ ⟨some ⟨"m1", "c1", "image", "x"⟩, some ⟨"u1"⟩⟩
    ⟨"m1", "c1", "image", "x"⟩ ⟨"u1"⟩
    (by decide) rfl rfl rfl rfl rfl rfl (by decide) (by decide)

/-- Claim C1 counterexample: a text message whose rawContent is not valid
JSON.  The source inserts the eventId into `processedEvents` and then
`JSON.parse` throws, so the first submission ends in an unhandled rejection
and attempts zero outbound replies — not exactly one, refuting the claim as
stated for this eventId. -/
theorem claim1_counterexample :
    IndexJs.webhook ⟨"cli_a", "sec"⟩ (fun _ => none) (fun _ => some ⟨some "ok", []⟩)
      (fun _ => false) ⟨[], []⟩
      ⟨none, none, false, some ⟨"im.message.receive_v1", "e1"⟩,
        some ⟨some ⟨"m1", "c1", "text", "not json"⟩, some ⟨"u1"⟩⟩⟩ =
      Except.error () := rfl

/-- Claim C1 amended: for every fresh message-received event whose text
content parses (non-text events included), submitting it twice yields
exactly one attempted reply in total: the first submission's trace starts
with the dedup insertion (before any send or AnswerService effect) and
contains exactly one reply, and the second submission returns
code 0 / "Duplicate event" with unchanged state and an empty trace.  A text
message with unparseable rawContent instead makes the handler throw at
JSON.parse (after the dedup insertion) and attempt no reply at all. -/
theorem claim1_duplicate_event_at_most_once (cfg : Config)
    (parse : String → Option UserInput) (ask : String → Option FlowiseResult)
    (fails : Nat → Bool) (st : ServerState) (p : Params) (hdr : EventHeader)
    (ev : RawEvent) (m : RawMessage) (s : SenderInfo)
    (hty : p.type ≠ some "url_verification") (henc : p.encrypt = false)
    (hh : p.header = some hdr) (het : hdr.event_type = "im.message.receive_v1")
    (hev : p.event = some ev) (hm : ev.message = some m) (hs : ev.sender = some s)
    (hfresh : hdr.event_id ∉ st.processedEvents)
    (hparse : m.message_type = "text" → (parse m.content).isSome = true) :
    ∃ r st1 tr,
      IndexJs.webhook cfg parse ask fails st p = Except.ok (r, st1, tr) ∧
      st1.processedEvents = hdr.event_id :: st.processedEvents ∧
      tr.head? = some (Effect.insertDedup hdr.event_id) ∧
      textSendCount tr = 1 ∧
      IndexJs.webhook cfg parse ask fails st1 p =
        Except.ok (Resp.codeMsg 0 (some "Duplicate event"), st1, []) := by
  by_cases hmt : m.message_type = "text"
  · obtain ⟨ui, hui⟩ := Option.isSome_iff_exists.mp (hparse hmt)
    have h1 := webhook_fresh_text cfg parse ask fails st p hdr ev m s ui hty henc hh het hev
      hm hs hfresh hmt hui
    refine ⟨_, _, _, h1, rfl, rfl, ?_, ?_⟩
    · simp only [textSendCount, List.countP_cons]
      have hc := textSendCount_handleReply ask fails ui (sessionIdOf m.chat_id s.user_id)
        m.message_id st.conversationHistories
      simp only [textSendCount] at hc
      simp [hc, isTextSend]
    · exact webhook_duplicate cfg parse ask fails _ p hdr ev m s hty henc hh het hev hm hs
        (List.mem_cons_self _ _)
  · have h1 := webhook_fresh_nontext cfg parse ask fails st p hdr ev m s hty henc hh het hev
      hm hs hfresh hmt
    refine ⟨_, _, _, h1, rfl, rfl, ?_, ?_⟩
    · rfl
    · exact webhook_duplicate cfg parse ask fails _ p hdr ev m s hty henc hh het hev hm hs
        (List.mem_cons_self _ _)

/-- Witness for C1: a concrete text message delivered twice. -/
theorem claim1_witness :
    ∃ r st1 tr,
      IndexJs.webhook ⟨"cli_a", "sec"⟩ (fun _ => some ⟨some "hello"⟩)
        (fun _ => some ⟨some "ok", []⟩) (fun _ => false) ⟨[], []⟩
        ⟨none, none, false, some ⟨"im.message.receive_v1", "e9"⟩,
          some ⟨some ⟨"m1", "c1", "text", "x"⟩, some ⟨"u1"⟩⟩⟩ = Except.ok (r, st1, tr) ∧
      st1.processedEvents = ["e9"] ∧
      tr.head? = some (Effect.insertDedup "e9") ∧
      textSendCount tr = 1 ∧
      IndexJs.webhook ⟨"cli_a", "sec"⟩ (fun _ => some ⟨some "hello"⟩)
        (fun _ => some ⟨some "ok", []⟩) (fun _ => false) st1
        ⟨none, none, false, some ⟨"im.message.receive_v1", "e9"⟩,
          some ⟨some ⟨"m1", "c1", "text", "x"⟩, some ⟨"u1"⟩⟩⟩ =
        Except.ok (Resp.codeMsg 0 (some "Duplicate event"), st1, []) :=
  claim1_duplicate_event_at_most_once ⟨"cli_a", "sec"⟩ (fun _ => some ⟨some "hello"⟩)
    (fun _ => some ⟨some "ok", []⟩) (fun _ => false) ⟨[], []⟩ _
    ⟨"im.message.receive_v1", "e9"⟩ ⟨some ⟨"m1", "c1", "text", "x"⟩, some ⟨"u1"⟩⟩
    ⟨"m1", "c1", "text", "x"⟩ ⟨"u1"⟩
    (by decide) rfl rfl rfl rfl rfl rfl (by decide) (fun _ => rfl)

/-- Claim C2 counterexample: (i) a message-received body with no `event`
field makes the async handler throw — the rejected promise escapes to the
HTTP layer rather than being converted into a structured body; (ii) even a
fully processed text message answers with `res.json(undefined)` (an empty
body), not an object carrying a code field. -/
theorem claim2_counterexample :
    IndexJs.webhook ⟨"cli_a", "sec"⟩ (fun _ => none) (fun _ => none) (fun _ => false)
      ⟨[], []⟩ ⟨none, none, false, some ⟨"im.message.receive_v1", "e1"⟩, none⟩ =
      Except.error () ∧
    IndexJs.webhook ⟨"cli_a", "sec"⟩ (fun _ => some ⟨some "hello"⟩)
      (fun _ => some ⟨some "ok", []⟩) (fun _ => false) ⟨[], []⟩
      ⟨none, none, false, some ⟨"im.message.receive_v1", "e2"⟩,
        some ⟨some ⟨"m1", "c1", "text", "x"⟩, some ⟨"u1"⟩⟩⟩ =
      Except.ok (Resp.empty, ⟨["e2"], [("c1u1", ["hello", "ok"])]⟩,
        [Effect.insertDedup "e2", Effect.askFlowise "hello",
         Effect.send (SendMsg.text "m1" "ok")]) := ⟨rfl, rfl⟩

/-- Claim C2 amended: for every body that is well-shaped (message-received
events carry `event.message` and `event.sender`, and a text message's
content parses) the handler completes without an unhandled failure and
responds with the challenge echo, an object whose code is in {0,1,2}, or —
on the fully-processed message path only — the empty `res.json(undefined)`
body. -/
theorem claim2_structured_ack_amended (cfg : Config) (parse : String → Option UserInput)
    (ask : String → Option FlowiseResult) (fails : Nat → Bool) (st : ServerState)
    (p : Params) (hws : wellShaped parse p) :
    ∃ r st1 tr, IndexJs.webhook cfg parse ask fails st p = Except.ok (r, st1, tr) ∧
      ∀ code msg, r = Resp.codeMsg code msg → code ≤ 2 := by
  unfold IndexJs.webhook
  by_cases hty : p.type = some "url_verification"
  · rw [if_pos hty]
    exact ⟨_, _, _, rfl, fun code msg h => nomatch h⟩
  · rw [if_neg hty]
    by_cases henc : p.encrypt = true
    · rw [if_pos henc]
      refine ⟨_, _, _, rfl, fun code msg h => ?_⟩
      injection h with h1 h2
      omega
    · rw [if_neg henc]
      cases hh : p.header with
      | none =>
        exact ⟨_, _, _, rfl, fun code msg h => validateAppConfig_code cfg code msg h⟩
      | some hdr =>
        dsimp only
        by_cases het : hdr.event_type = "im.message.receive_v1"
        · obtain ⟨ev, m, sndr, hev, hm, hs, hparse⟩ := hws hdr hh het
          rw [if_pos het, hev]
          dsimp only
          rw [hm]
          dsimp only
          rw [hs]
          dsimp only
          by_cases hdup : hdr.event_id ∈ st.processedEvents
          · rw [if_pos hdup]
            refine ⟨_, _, _, rfl, fun code msg h => ?_⟩
            injection h with h1 h2
            omega
          · rw [if_neg hdup]
            by_cases hmt : m.message_type = "text"
            · rw [if_neg (not_not_intro hmt)]
              obtain ⟨ui, hui⟩ := Option.isSome_iff_exists.mp (hparse hmt)
              rw [hui]
              exact ⟨_, _, _, rfl, fun code msg h => nomatch h⟩
            · rw [if_pos hmt]
              refine ⟨_, _, _, rfl, fun code msg h => ?_⟩
              injection h with h1 h2
              omega
        · rw [if_neg het]
          refine ⟨_, _, _, rfl, fun code msg h => ?_⟩
          injection h with h1 h2
          omega

/-- Witness for C2 amended at a verification handshake. -/
theorem claim2_witness :
    ∃ r st1 tr,
      IndexJs.webhook ⟨"cli_a", "sec"⟩ (fun _ => none) (fun _ => none) (fun _ => false)
        ⟨[], []⟩ ⟨some "url_verification", some "abc", false, none, none⟩ =
        Except.ok (r, st1, tr) ∧
      ∀ code msg, r = Resp.codeMsg code msg → code ≤ 2 :=
  claim2_structured_ack_amended ⟨"cli_a", "sec"⟩ (fun _ => none) (fun _ => none)
    (fun _ => false) ⟨[], []⟩ ⟨some "url_verification", some "abc", false, none, none⟩
    (fun _ h => nomatch h)

/-- Claim C10 counterexample: on an input whose text is absent,
`src/index.js` replies with the invalid-input notice, while `part_000`
throws a TypeError — the two files are not behaviorally equivalent. -/
theorem claim10_counterexample :
    IndexJs.handleReply (fun _ => none) (fun _ => false) ⟨none⟩ "s" "m" [] =
      ([], [Effect.send (SendMsg.text "m"
        "⚠️ Invalid input received. Please provide a valid question.")]) ∧
    Part000.handleReply (fun _ => none) none false ⟨none⟩ "s" "m" [] =
      Except.error () := ⟨rfl, rfl⟩

/-- Claim C10 amended: the two handleReply implementations perform the same
history mutations and send the same reply sequence whenever the input text
is present, nonempty after mention stripping, not a command, mentions
neither "histogram" nor "chart", and the answer carries no artifacts; they
diverge on absent text (reply vs. throw), on chart/histogram questions
(part_000 takes an extra image-upload path), on "/help" (different help
texts), and on answers with png artifacts (only index.js sends them). -/
theorem claim10_handleReply_equiv_amended (ask : String → Option FlowiseResult)
    (upload : Option String) (imgFails : Bool) (fails : Nat → Bool) (ui : UserInput)
    (sessionId messageId : String) (st : Store) (t : String)
    (ht : ui.text = some t) (hq : stripMention t ≠ "")
    (hcmd : strStartsWith (stripMention t) "/" = false)
    (hchart : Part000.isChartQuestion (stripMention t) = false)
    (harts : ∀ prompt r, ask prompt = some r → r.artifacts = []) :
    Part000.handleReply ask upload imgFails ui sessionId messageId st =
      Except.ok (IndexJs.handleReply ask fails ui sessionId messageId st) := by
  unfold Part000.handleReply IndexJs.handleReply
  rw [ht]
  simp only [Option.map_some']
  rw [if_neg hq, hcmd]
  simp only [Bool.false_eq_true, if_false]
  rw [queryFlowise_relate]
  rcases hqf : IndexJs.queryFlowise ask (stripMention t) sessionId st with ⟨r, st1, acts⟩
  cases r with
  | error e =>
    try dsimp only [Except.map]
    try dsimp only
    rw [replyTrace_no_artifacts]
    rfl
  | ok result =>
    have hask := queryFlowise_ok_ask ask (stripMention t) sessionId st result
      (by rw [hqf])
    have hart : result.artifacts = [] := harts _ result hask
    try dsimp only [Except.map]
    try dsimp only
    rw [hchart]
    simp only [Bool.false_eq_true, if_false]
    rw [hart, replyTrace_no_artifacts]
    rfl

/-- Witness for C10 amended at a plain question with an artifact-free
answer. -/
theorem claim10_witness :
    Part000.handleReply (fun _ => some ⟨some "ok", []⟩) none false ⟨some "hello"⟩ "s" "m" [] =
      Except.ok (IndexJs.handleReply (fun _ => some ⟨some "ok", []⟩) (fun _ => false)
        ⟨some "hello"⟩ "s" "m" []) :=
  claim10_handleReply_equiv_amended (fun _ => some ⟨some "ok", []⟩) none false
    (fun _ => false) ⟨some "hello"⟩ "s" "m" [] "hello" rfl (by decide) (by decide) (by decide)
    (fun prompt r h => by injection h with h2; rw [← h2])
